import Mathlib

/-!
Shallow embedding of `src/image_processing.py` (Image-Processing-Toolkit-Python).

The program keeps an image as a numpy ndarray of unsigned 8-bit samples.  We
model an ndarray the way numpy itself stores one: an explicit `shape` list plus
a flat row-major `data` buffer of natural-number samples.  Well-formedness
(`data.length = shape.prod`) and the uint8 range (`x ≤ 255`) are stated as
predicates and assumed only where a claim needs them.

Numeric semantics of the source and how they are embedded:
* `ThresholdByNumber.apply_threshold` compares uint8 samples with a Python
  `int`; we compare a `Nat` sample with an `Int` threshold.
* `ThresholdByPercentage.apply_threshold` computes
  `threshold_value = (percentage / 100) * 255` in IEEE-754 double precision and
  compares integer samples against it.  We use the exact rational
  `(p / 100) * 255 = 51*p/20`.  This is faithful: for every integer `p` the
  rational `51*p/20` is either an exact integer (when `20 ∣ p`; for those `p`
  the two double roundings land exactly on that integer, e.g.
  `fl(fl(0.2)*255) = 51.0`) or at distance ≥ 1/20 from every integer, while the
  accumulated double rounding error is below `2^-40` on the relevant range, so
  `s >= threshold_value` agrees with `(s:ℚ) ≥ 51*p/20` for every integer sample.
* `RednessDetector.detect_red_areas` casts channels to float and multiplies by
  a float `sensitivity`; every double is a rational, and we model the
  multiplication and comparison exactly over `ℚ`.
* File I/O (imageio read/write) is external.  A save is modelled by an oracle
  Boolean `writeOk`: `true` means the encode succeeds, `false` means it raises
  (`EncodeError` in the spec's taxonomy).  The filter methods return the new
  object state together with the outcome of the save they trigger, which makes
  the order "mutate in memory, then persist" observable.
-/

/-- A numpy ndarray: explicit shape plus flat row-major sample buffer. -/
structure NDArray where
  shape : List Nat
  data : List Nat
deriving Repr, DecidableEq

/-- Well-formedness of an ndarray: the buffer has exactly `shape.prod` samples. -/
def NDArray.wf (a : NDArray) : Prop := a.data.length = a.shape.prod

/-- All samples fit in an unsigned byte, as they do for every image the source
loads (`imageio` decodes 8-bit rasters) and for every filter output. -/
def NDArray.uint8 (a : NDArray) : Prop := ∀ x ∈ a.data, x ≤ 255

/-- The mutable state of `MyImage` (`__init__` / `set_image`): resolved path,
decoded pixel array, and the logical file name. -/
structure MyImage where
  image_path : String
  img_array : NDArray
  original_name : String
deriving Repr, DecidableEq

/-- Failure of the external encode step (`im.imwrite`), the spec's `EncodeError`. -/
inductive EncodeError where
  | encodeFailed
deriving Repr, DecidableEq

/-- Model of `os.path.splitext` for ordinary file names: split off the extension
starting at the last dot, provided that dot is not the leading character. -/
def splitExt (name : String) : String × String :=
  let rev := name.toList.reverse
  let extRev := rev.takeWhile (fun c => c ≠ '.')
  match rev.dropWhile (fun c => c ≠ '.') with
  | [] => (name, "")
  | _ :: [] => (name, "")
  | _ :: stemRev => (String.mk stemRev.reverse, String.mk ('.' :: extRev.reverse))

/-- `MyImage.save_processed_image`: derive `{name}{suffix}{ext}` from
`original_name` and encode `img_array` to it.  The write itself is external;
`writeOk` tells whether it succeeds.  On success the source returns the new
path (here: the derived file name, the assets-directory prefix being external
path resolution). -/
def save_processed_image (writeOk : Bool) (img : MyImage) (suffix : String) :
    Except EncodeError String :=
  let stemExt := splitExt img.original_name
  let newFilename := stemExt.1 ++ suffix ++ stemExt.2
  if writeOk then Except.ok newFilename else Except.error EncodeError.encodeFailed

/-- The per-sample rule of `ThresholdByNumber.apply_threshold` lines 109-113:
`new_array` starts as zeros, samples `< threshold_value` are set to 0 and
samples `>= threshold_value` to 255; the two masks are exhaustive and disjoint,
so elementwise the result is `255 if s >= t else 0`. -/
def thresholdSample (threshold_value : Int) (s : Nat) : Nat :=
  if threshold_value ≤ (s : Int) then 255 else 0

/-- `ThresholdByNumber.apply_threshold`: replace `img_array` by the thresholded
array of the same shape (the `astype(np.uint8)` is lossless since every sample
is 0 or 255), then save with suffix `_threshold_{t}`. -/
def ThresholdByNumber.apply_threshold (writeOk : Bool) (img : MyImage)
    (threshold_value : Int) : MyImage × Except EncodeError String :=
  let new_array : NDArray :=
    { shape := img.img_array.shape
      data := img.img_array.data.map (thresholdSample threshold_value) }
  let img' : MyImage := { img with img_array := new_array }
  (img', save_processed_image writeOk img' ("_threshold_" ++ toString threshold_value))

/-- `threshold_value = (percentage / 100) * 255` of
`ThresholdByPercentage.apply_threshold` line 139, as the exact rational the
double computation realises against integer samples (see the header comment). -/
def threshold_of_percentage (percentage : Int) : ℚ :=
  ((percentage : ℚ) / 100) * 255

/-- The per-sample rule of `ThresholdByPercentage.apply_threshold` lines
136-143: same exhaustive 0/255 masks as the absolute filter, against the
percentage-derived threshold. -/
def pctThresholdSample (percentage : Int) (s : Nat) : Nat :=
  if threshold_of_percentage percentage ≤ (s : ℚ) then 255 else 0

/-- `ThresholdByPercentage.apply_threshold`: threshold against
`(percentage/100)*255`, then save with suffix `_threshold_{p}percent`. -/
def ThresholdByPercentage.apply_threshold (writeOk : Bool) (img : MyImage)
    (percentage : Int) : MyImage × Except EncodeError String :=
  let new_array : NDArray :=
    { shape := img.img_array.shape
      data := img.img_array.data.map (pctThresholdSample percentage) }
  let img' : MyImage := { img with img_array := new_array }
  (img', save_processed_image writeOk img'
    ("_threshold_" ++ toString percentage ++ "percent"))

/-- The RGB precondition of `RednessDetector.detect_red_areas` line 176:
`len(shape) == 3 and shape[2] == 3` (the source aborts on its negation). -/
def isRGBShape (shape : List Nat) : Bool :=
  shape.length == 3 && shape.getD 2 0 == 3

/-- The red mask of lines 188-189 at one pixel: red strictly exceeds both
green and blue scaled by the sensitivity factor. -/
def red_mask_pixel (sensitivity : ℚ) (r g b : Nat) : Bool :=
  decide ((g : ℚ) * sensitivity < (r : ℚ)) && decide ((b : ℚ) * sensitivity < (r : ℚ))

/-- Lines 192-194 on the flat buffer: each `(r,g,b)` triple becomes
`[255,255,255]` where the mask holds and `[0,0,0]` elsewhere.  A well-formed
`(h,w,3)` array has `3*h*w` samples, so the residual case (fewer than three
samples left) never carries data; it returns the residue unchanged. -/
def detect_red_data (sensitivity : ℚ) : List Nat → List Nat
  | r :: g :: b :: rest =>
    (if red_mask_pixel sensitivity r g b then [255, 255, 255] else [0, 0, 0])
      ++ detect_red_data sensitivity rest
  | rest => rest

/-- `np.sum(red_mask)` of line 203: the number of mask-true pixels. -/
def countRedPixels (sensitivity : ℚ) : List Nat → Nat
  | r :: g :: b :: rest =>
    (if red_mask_pixel sensitivity r g b then 1 else 0) + countRedPixels sensitivity rest
  | _ => 0

/-- The statistics printed by lines 203-206. -/
structure RedStats where
  red_pixel_count : Nat
  total_pixels : Nat
  red_percentage : ℚ
deriving Repr, DecidableEq

instance : DecidableEq (Except EncodeError String) := fun x y =>
  match x, y with
  | .ok a, .ok b => decidable_of_iff (a = b) (by simp)
  | .error a, .error b => decidable_of_iff (a = b) (by simp)
  | .ok _, .error _ => isFalse (by simp)
  | .error _, .ok _ => isFalse (by simp)

/-- Outcome of `detect_red_areas`: either the RGB precondition failed (the
source prints "Error: Image must be RGB (3 channels)" and returns without
touching the array or saving — the spec's `UnsupportedFormatError`), or the
filter ran, attempted its save, and reported statistics. -/
inductive RedOutcome where
  | unsupportedFormat
  | completed (save_result : Except EncodeError String) (stats : RedStats)
deriving Repr, DecidableEq

/-- `RednessDetector.detect_red_areas` lines 161-206: check the RGB shape,
build the white/black image from the red mask, replace `img_array`, save with
a sensitivity-tagged suffix, and report mask count, pixel total
(`red_mask.size = h*w`) and percentage. -/
def RednessDetector.detect_red_areas (writeOk : Bool) (img : MyImage)
    (sensitivity : ℚ) : MyImage × RedOutcome :=
  if isRGBShape img.img_array.shape then
    let new_image : NDArray :=
      { shape := img.img_array.shape
        data := detect_red_data sensitivity img.img_array.data }
    let img' : MyImage := { img with img_array := new_image }
    let red_pixel_count := countRedPixels sensitivity img.img_array.data
    let total_pixels := (img.img_array.shape.take 2).prod
    let red_percentage : ℚ := ((red_pixel_count : ℚ) / (total_pixels : ℚ)) * 100
    (img', RedOutcome.completed
      (save_processed_image writeOk img' ("_red_detection_sens_" ++ toString sensitivity))
      ⟨red_pixel_count, total_pixels, red_percentage⟩)
  else
    (img, RedOutcome.unsupportedFormat)

/-- Group the flat buffer of an `(h,w,3)` array into its pixels. -/
def triples : List Nat → List (Nat × Nat × Nat)
  | r :: g :: b :: rest => (r, g, b) :: triples rest
  | _ => []

/-- The classification rule both threshold filters share, at a rational
threshold: a sample becomes white (255) exactly when it is ≥ the threshold. -/
def thresholdSampleAt (t : ℚ) (s : Nat) : Nat :=
  if t ≤ (s : ℚ) then 255 else 0

/-- A concrete 2×2 grayscale image (rank-2 grid), used to instantiate theorems. -/
def grayImg : MyImage :=
  { image_path := "assets/photo.png"
    img_array := { shape := [2, 2], data := [0, 100, 200, 255] }
    original_name := "photo.png" }

/-- A concrete 1×2 RGB image (rank-3 grid with 3 channels): one red-dominant
pixel and one green-dominant pixel. -/
def rgbImg : MyImage :=
  { image_path := "assets/dots.png"
    img_array := { shape := [1, 2, 3], data := [200, 10, 10, 10, 200, 10] }
    original_name := "dots.png" }

theorem thresholdSample_eq_255 (t : Int) (s : Nat) :
    thresholdSample t s = 255 ↔ t ≤ (s : Int) := by
  unfold thresholdSample
  split <;> simp_all

theorem thresholdSample_zero_or (t : Int) (s : Nat) :
    thresholdSample t s = 0 ∨ thresholdSample t s = 255 := by
  unfold thresholdSample
  split <;> simp

theorem thresholdSample_eq_at (t : Int) (s : Nat) :
    thresholdSample t s = thresholdSampleAt (t : ℚ) s := by
  unfold thresholdSample thresholdSampleAt
  by_cases h : t ≤ (s : Int)
  · rw [if_pos h, if_pos (by exact_mod_cast h)]
  · rw [if_neg h, if_neg (fun hc => h (by exact_mod_cast hc))]

theorem pct_le_iff (p : Int) (s : Nat) :
    (threshold_of_percentage p ≤ (s : ℚ)) ↔ 51 * p ≤ 20 * (s : Int) := by
  unfold threshold_of_percentage
  rw [div_mul_eq_mul_div, div_le_iff₀ (by norm_num : (0:ℚ) < 100)]
  constructor
  · intro h
    have h2 : p * 255 ≤ (s : Int) * 100 := by exact_mod_cast h
    omega
  · intro h
    have h2 : p * 255 ≤ (s : Int) * 100 := by omega
    exact_mod_cast h2

theorem pctThresholdSample_eq_ite (p : Int) (s : Nat) :
    pctThresholdSample p s = if 51 * p ≤ 20 * (s : Int) then 255 else 0 := by
  unfold pctThresholdSample
  by_cases h : threshold_of_percentage p ≤ (s : ℚ)
  · rw [if_pos h, if_pos ((pct_le_iff p s).1 h)]
  · rw [if_neg h, if_neg (fun hc => h ((pct_le_iff p s).2 hc))]

/-- C1: for every pixel grid and integer threshold `t`, the absolute-threshold
filter keeps the shape, maps each sample to 255 iff it is ≥ `t` and to 0
otherwise, and its output contains only the values 0 and 255. -/
theorem thresholdByNumber_binary_map (img : MyImage) (t : Int) (writeOk : Bool) :
    ((ThresholdByNumber.apply_threshold writeOk img t).1.img_array.shape
        = img.img_array.shape)
    ∧ ((ThresholdByNumber.apply_threshold writeOk img t).1.img_array.data
        = img.img_array.data.map (fun (s : Nat) => if t ≤ (s : Int) then 255 else 0))
    ∧ (∀ x ∈ (ThresholdByNumber.apply_threshold writeOk img t).1.img_array.data,
        x = 0 ∨ x = 255)
    ∧ (∀ (i : Nat) (s : Nat), img.img_array.data[i]? = some s →
        ((ThresholdByNumber.apply_threshold writeOk img t).1.img_array.data[i]?
            = some 255 ↔ t ≤ (s : Int))) := by
  refine ⟨rfl, rfl, ?_, ?_⟩
  · intro x hx
    obtain ⟨s, _, hs⟩ := List.mem_map.1 hx
    exact hs ▸ thresholdSample_zero_or t s
  · intro i s hs
    show (img.img_array.data.map (thresholdSample t))[i]? = some 255 ↔ t ≤ (s : Int)
    rw [List.getElem?_map, hs, Option.map_some']
    rw [Option.some_inj]
    exact thresholdSample_eq_255 t s

/-- C1 witness: the filter at threshold 128 on the concrete grayscale image. -/
theorem thresholdByNumber_binary_map_witness :
    (ThresholdByNumber.apply_threshold true grayImg 128).1.img_array.data
      = [0, 0, 255, 255] :=
  ((thresholdByNumber_binary_map grayImg 128 true).2.1).trans (by decide)

/-- C4: the percentage filter computes `t = p/100 * 255` (the rational value the
floating-point code realises against integer samples), keeps the shape, and
classifies each sample by the same rule as the absolute filter — 255 iff the
sample is ≥ `t`, with equality taking the white branch. -/
theorem thresholdByPercentage_float_rule (img : MyImage) (p : Int) (writeOk : Bool) :
    ((ThresholdByPercentage.apply_threshold writeOk img p).1.img_array.shape
        = img.img_array.shape)
    ∧ ((ThresholdByPercentage.apply_threshold writeOk img p).1.img_array.data
        = img.img_array.data.map (thresholdSampleAt (((p : ℚ) / 100) * 255)))
    ∧ (∀ s : Nat, (s : ℚ) = threshold_of_percentage p → pctThresholdSample p s = 255)
    ∧ (∀ (t : Int) (s : Nat), thresholdSample t s = thresholdSampleAt (t : ℚ) s) := by
  refine ⟨rfl, rfl, ?_, thresholdSample_eq_at⟩
  intro s hs
  unfold pctThresholdSample
  rw [if_pos (le_of_eq hs.symm)]

/-- C4 witness: at `p = 40` the threshold is exactly 102, sample 102 sits on
the boundary and takes the white branch; the concrete grid is classified
elementwise. -/
theorem thresholdByPercentage_float_rule_witness :
    (ThresholdByPercentage.apply_threshold true grayImg 40).1.img_array.data
      = [0, 0, 255, 255]
    ∧ pctThresholdSample 40 102 = 255 :=
  ⟨((thresholdByPercentage_float_rule grayImg 40 true).2.1).trans
     (by norm_num [grayImg, thresholdSampleAt]),
   (thresholdByPercentage_float_rule grayImg 40 true).2.2.1 102
     (by norm_num [threshold_of_percentage])⟩

/-- C6: over 8-bit samples, percentage 0 yields an all-white grid, and
percentage 100 yields white exactly at samples ≥ 255 — that is, exactly at
samples equal to 255 — and black elsewhere. -/
theorem percentage_extremes (img : MyImage) (writeOk : Bool)
    (h8 : img.img_array.uint8) :
    ((ThresholdByPercentage.apply_threshold writeOk img 0).1.img_array.data
        = img.img_array.data.map (fun _ => 255))
    ∧ ((ThresholdByPercentage.apply_threshold writeOk img 100).1.img_array.data
        = img.img_array.data.map (fun (s : Nat) => if 255 ≤ s then 255 else 0))
    ∧ (∀ s ∈ img.img_array.data, (pctThresholdSample 100 s = 255 ↔ s = 255)) := by
  refine ⟨?_, ?_, ?_⟩
  · show img.img_array.data.map (pctThresholdSample 0) = _
    refine List.map_congr_left (fun s _ => ?_)
    rw [pctThresholdSample_eq_ite]
    rw [if_pos (by omega)]
  · show img.img_array.data.map (pctThresholdSample 100) = _
    refine List.map_congr_left (fun s _ => ?_)
    rw [pctThresholdSample_eq_ite]
    by_cases h : (255 : Nat) ≤ s
    · rw [if_pos (by omega), if_pos h]
    · rw [if_neg (by omega), if_neg h]
  · intro s hs
    have h255 := h8 s hs
    rw [pctThresholdSample_eq_ite]
    split <;> constructor <;> intro h2 <;> omega

/-- C6 witness: both extreme percentages on the concrete grayscale image. -/
theorem percentage_extremes_witness :
    (ThresholdByPercentage.apply_threshold true grayImg 0).1.img_array.data
      = [255, 255, 255, 255]
    ∧ (ThresholdByPercentage.apply_threshold true grayImg 100).1.img_array.data
      = [0, 0, 0, 255] := by
  have h := percentage_extremes grayImg true
    (by decide : ∀ x ∈ grayImg.img_array.data, x ≤ 255)
  exact ⟨h.1.trans (by decide), h.2.1.trans (by decide)⟩

/-- C10: the absolute-threshold filter is antitone in its threshold — a sample
that is white at the larger threshold `t2` is white at any `t1 ≤ t2`. -/
theorem threshold_antitone (img : MyImage) (t1 t2 : Int) (writeOk : Bool)
    (hle : t1 ≤ t2) (i : Nat)
    (hwhite : (ThresholdByNumber.apply_threshold writeOk img t2).1.img_array.data[i]?
        = some 255) :
    (ThresholdByNumber.apply_threshold writeOk img t1).1.img_array.data[i]?
      = some 255 := by
  have h2 : (img.img_array.data.map (thresholdSample t2))[i]? = some 255 := hwhite
  rw [List.getElem?_map] at h2
  cases hd : img.img_array.data[i]? with
  | none => rw [hd] at h2; simp at h2
  | some s =>
    rw [hd, Option.map_some'] at h2
    have ht2 : t2 ≤ (s : Int) :=
      (thresholdSample_eq_255 t2 s).1 (Option.some.inj h2)
    show (img.img_array.data.map (thresholdSample t1))[i]? = some 255
    rw [List.getElem?_map, hd, Option.map_some']
    exact congrArg some ((thresholdSample_eq_255 t1 s).2 (le_trans hle ht2))

/-- C10 witness: sample 200 of the concrete grid is white at threshold 200,
hence also at the lower threshold 100. -/
theorem threshold_antitone_witness :
    (ThresholdByNumber.apply_threshold true grayImg 100).1.img_array.data[2]?
      = some 255 :=
  threshold_antitone grayImg 100 200 true (by norm_num) 2 (by decide)

theorem thresholdSample_idem (t : Int) (s : Nat) (h : s ≤ 255) :
    thresholdSample t (thresholdSample t s) = thresholdSample t s := by
  by_cases hts : t ≤ (s : Int)
  · have h1 : thresholdSample t s = 255 := (thresholdSample_eq_255 t s).2 hts
    rw [h1]
    exact (thresholdSample_eq_255 t 255).2 (by omega)
  · have h1 : thresholdSample t s = 0 := by
      unfold thresholdSample
      rw [if_neg hts]
    rw [h1]
    unfold thresholdSample
    rw [if_neg (by omega)]

theorem pctThresholdSample_idem (p : Int) (s : Nat) (h : s ≤ 255) :
    pctThresholdSample p (pctThresholdSample p s) = pctThresholdSample p s := by
  by_cases hc : 51 * p ≤ 20 * (s : Int)
  · have h1 : pctThresholdSample p s = 255 := by
      rw [pctThresholdSample_eq_ite, if_pos hc]
    rw [h1, pctThresholdSample_eq_ite, if_pos (by omega)]
  · have h1 : pctThresholdSample p s = 0 := by
      rw [pctThresholdSample_eq_ite, if_neg hc]
    rw [h1, pctThresholdSample_eq_ite, if_neg (by omega)]

theorem map_threshold_idem (t : Int) (l : List Nat) (h8 : ∀ x ∈ l, x ≤ 255) :
    (l.map (thresholdSample t)).map (thresholdSample t) = l.map (thresholdSample t) := by
  rw [List.map_map]
  refine List.map_congr_left (fun s hs => ?_)
  simp only [Function.comp_apply]
  exact thresholdSample_idem t s (h8 s hs)

theorem map_pct_idem (p : Int) (l : List Nat) (h8 : ∀ x ∈ l, x ≤ 255) :
    (l.map (pctThresholdSample p)).map (pctThresholdSample p)
      = l.map (pctThresholdSample p) := by
  rw [List.map_map]
  refine List.map_congr_left (fun s hs => ?_)
  simp only [Function.comp_apply]
  exact pctThresholdSample_idem p s (h8 s hs)

/-- C5: over 8-bit samples (what `imageio` loads), applying either threshold
filter twice with the same parameter yields the same pixel grid as applying it
once. -/
theorem threshold_filters_idempotent (img : MyImage) (t p : Int)
    (w1 w2 : Bool) (h8 : img.img_array.uint8) :
    ((ThresholdByNumber.apply_threshold w2
        (ThresholdByNumber.apply_threshold w1 img t).1 t).1.img_array
      = (ThresholdByNumber.apply_threshold w1 img t).1.img_array)
    ∧ ((ThresholdByPercentage.apply_threshold w2
        (ThresholdByPercentage.apply_threshold w1 img p).1 p).1.img_array
      = (ThresholdByPercentage.apply_threshold w1 img p).1.img_array) := by
  constructor
  · show ({ shape := img.img_array.shape
            data := (img.img_array.data.map (thresholdSample t)).map (thresholdSample t) }
          : NDArray)
      = { shape := img.img_array.shape, data := img.img_array.data.map (thresholdSample t) }
    rw [map_threshold_idem t _ h8]
  · show ({ shape := img.img_array.shape
            data := (img.img_array.data.map (pctThresholdSample p)).map (pctThresholdSample p) }
          : NDArray)
      = { shape := img.img_array.shape, data := img.img_array.data.map (pctThresholdSample p) }
    rw [map_pct_idem p _ h8]

/-- C5 witness: both filters are idempotent on the concrete grayscale image. -/
theorem threshold_filters_idempotent_witness :
    ((ThresholdByNumber.apply_threshold true
        (ThresholdByNumber.apply_threshold true grayImg 128).1 128).1.img_array
      = (ThresholdByNumber.apply_threshold true grayImg 128).1.img_array)
    ∧ ((ThresholdByPercentage.apply_threshold true
        (ThresholdByPercentage.apply_threshold true grayImg 40).1 40).1.img_array
      = (ThresholdByPercentage.apply_threshold true grayImg 40).1.img_array) :=
  threshold_filters_idempotent grayImg 128 40 true true
    (by decide : ∀ x ∈ grayImg.img_array.data, x ≤ 255)

theorem pctThresholdSample_zero_or (p : Int) (s : Nat) :
    pctThresholdSample p s = 0 ∨ pctThresholdSample p s = 255 := by
  rw [pctThresholdSample_eq_ite]
  split <;> simp

theorem rgb_shape_structure (shape : List Nat) (h : isRGBShape shape = true) :
    ∃ a b, shape = [a, b, 3] := by
  unfold isRGBShape at h
  rw [Bool.and_eq_true, beq_iff_eq, beq_iff_eq] at h
  obtain ⟨hlen, hget⟩ := h
  obtain ⟨a, b, c, rfl⟩ := List.length_eq_three.1 hlen
  have hc : c = 3 := by simpa [List.getD] using hget
  exact ⟨a, b, by rw [hc]⟩

theorem detect_red_data_mem (sens : ℚ) :
    ∀ l : List Nat, l.length % 3 = 0 → ∀ x ∈ detect_red_data sens l, x = 0 ∨ x = 255
  | [] => fun _ x hx => by simp [detect_red_data] at hx
  | [a] => fun h => by simp at h
  | [a, b] => fun h => by simp at h
  | r :: g :: b :: rest => fun h x hx => by
      simp only [detect_red_data] at hx
      rcases List.mem_append.1 hx with h1 | h2
      · split at h1 <;> simp_all
      · refine detect_red_data_mem sens rest ?_ x h2
        simp only [List.length_cons] at h
        omega

/-- C7: every filter preserves the shape of the pixel grid (2D stays 2D with
the same dimensions, 3D stays 3D); after a threshold filter every stored sample
is 0 or 255 (hence an integer in [0,255], no intermediate survives); after the
red filter on a well-formed RGB grid likewise; and the red filter's abort path
leaves the array — hence its loaded uint8 samples — untouched. -/
theorem filters_preserve_shape_and_range (img : MyImage) (t p : Int)
    (sens : ℚ) (writeOk : Bool) :
    ((ThresholdByNumber.apply_threshold writeOk img t).1.img_array.shape
        = img.img_array.shape)
    ∧ (∀ x ∈ (ThresholdByNumber.apply_threshold writeOk img t).1.img_array.data,
        x = 0 ∨ x = 255)
    ∧ ((ThresholdByPercentage.apply_threshold writeOk img p).1.img_array.shape
        = img.img_array.shape)
    ∧ (∀ x ∈ (ThresholdByPercentage.apply_threshold writeOk img p).1.img_array.data,
        x = 0 ∨ x = 255)
    ∧ ((RednessDetector.detect_red_areas writeOk img sens).1.img_array.shape
        = img.img_array.shape)
    ∧ (isRGBShape img.img_array.shape = true → img.img_array.wf →
        ∀ x ∈ (RednessDetector.detect_red_areas writeOk img sens).1.img_array.data,
          x = 0 ∨ x = 255)
    ∧ (isRGBShape img.img_array.shape = false →
        (RednessDetector.detect_red_areas writeOk img sens).1.img_array
          = img.img_array) := by
  refine ⟨rfl, ?_, rfl, ?_, ?_, ?_, ?_⟩
  · intro x hx
    obtain ⟨s, _, hs⟩ := List.mem_map.1 hx
    exact hs ▸ thresholdSample_zero_or t s
  · intro x hx
    obtain ⟨s, _, hs⟩ := List.mem_map.1 hx
    exact hs ▸ pctThresholdSample_zero_or p s
  · unfold RednessDetector.detect_red_areas
    split <;> rfl
  · intro hrgb hwf x hx
    rw [show (RednessDetector.detect_red_areas writeOk img sens).1.img_array.data
        = detect_red_data sens img.img_array.data by
          unfold RednessDetector.detect_red_areas
          rw [if_pos hrgb]] at hx
    obtain ⟨a, b, hshape⟩ := rgb_shape_structure img.img_array.shape hrgb
    have hlen : img.img_array.data.length = a * b * 3 := by
      rw [NDArray.wf, hshape] at hwf
      simpa [mul_assoc] using hwf
    refine detect_red_data_mem sens img.img_array.data ?_ x hx
    rw [hlen]
    exact Nat.mul_mod_left (a * b) 3
  · intro hrgb
    unfold RednessDetector.detect_red_areas
    rw [if_neg (by rw [hrgb]; exact Bool.false_ne_true)]

/-- C7 witness: shapes are preserved for the concrete RGB image, and the abort
path leaves the concrete grayscale image's array unchanged. -/
theorem filters_preserve_shape_and_range_witness :
    ((ThresholdByNumber.apply_threshold true rgbImg 128).1.img_array.shape
        = rgbImg.img_array.shape)
    ∧ ((RednessDetector.detect_red_areas true grayImg (6/5)).1.img_array
        = grayImg.img_array) :=
  ⟨(filters_preserve_shape_and_range rgbImg 128 40 (6/5) true).1,
   (filters_preserve_shape_and_range grayImg 128 40 (6/5) true).2.2.2.2.2.2 rfl⟩

/-- C3: invoking the red-dominance filter on a buffer whose grid does not have
exactly 3 channels (for instance a rank-2 grayscale grid) takes the
unsupported-format branch: the whole buffer — in particular its pixel grid —
is unchanged and the outcome carries no save attempt. -/
theorem rednessDetector_non_rgb_aborts (img : MyImage) (sens : ℚ) (writeOk : Bool)
    (h : isRGBShape img.img_array.shape = false) :
    (RednessDetector.detect_red_areas writeOk img sens).1 = img
    ∧ (RednessDetector.detect_red_areas writeOk img sens).2
        = RedOutcome.unsupportedFormat := by
  unfold RednessDetector.detect_red_areas
  rw [if_neg (by rw [h]; exact Bool.false_ne_true)]
  exact ⟨rfl, rfl⟩

/-- C3 witness: the concrete grayscale buffer is left untouched. -/
theorem rednessDetector_non_rgb_aborts_witness :
    (RednessDetector.detect_red_areas true grayImg (6/5)).1 = grayImg
    ∧ (RednessDetector.detect_red_areas true grayImg (6/5)).2
        = RedOutcome.unsupportedFormat :=
  rednessDetector_non_rgb_aborts grayImg (6/5) true rfl

/-- C8: each filter replaces the in-memory grid before the persistence step
runs — the returned buffer state is identical whether the save succeeds or
fails, it already holds the fully filtered grid, and a failing save surfaces
`EncodeError` while the mutation stands: mutation and persistence are not
transactional. -/
theorem mutation_precedes_persistence (img : MyImage) (t p : Int) (sens : ℚ) :
    ((ThresholdByNumber.apply_threshold false img t).1
        = (ThresholdByNumber.apply_threshold true img t).1)
    ∧ ((ThresholdByNumber.apply_threshold false img t).1.img_array.data
        = img.img_array.data.map (thresholdSample t))
    ∧ ((ThresholdByNumber.apply_threshold false img t).2
        = Except.error EncodeError.encodeFailed)
    ∧ ((ThresholdByPercentage.apply_threshold false img p).1
        = (ThresholdByPercentage.apply_threshold true img p).1)
    ∧ ((ThresholdByPercentage.apply_threshold false img p).1.img_array.data
        = img.img_array.data.map (pctThresholdSample p))
    ∧ ((ThresholdByPercentage.apply_threshold false img p).2
        = Except.error EncodeError.encodeFailed)
    ∧ (isRGBShape img.img_array.shape = true →
        ((RednessDetector.detect_red_areas false img sens).1
            = (RednessDetector.detect_red_areas true img sens).1)
        ∧ ((RednessDetector.detect_red_areas false img sens).1.img_array.data
            = detect_red_data sens img.img_array.data)
        ∧ (∃ stats, (RednessDetector.detect_red_areas false img sens).2
            = RedOutcome.completed (Except.error EncodeError.encodeFailed) stats)) := by
  refine ⟨rfl, rfl, rfl, rfl, rfl, rfl, fun hrgb => ?_⟩
  unfold RednessDetector.detect_red_areas
  simp only [if_pos hrgb]
  exact ⟨trivial, trivial, ⟨_, rfl⟩⟩

/-- C8 witness: a failed save surfaces the error while the buffer state
matches the successful-save run on the concrete RGB image. -/
theorem mutation_precedes_persistence_witness :
    ((ThresholdByNumber.apply_threshold false rgbImg 128).2
        = Except.error EncodeError.encodeFailed)
    ∧ ((RednessDetector.detect_red_areas false rgbImg (6/5)).1
        = (RednessDetector.detect_red_areas true rgbImg (6/5)).1) := by
  have h := mutation_precedes_persistence rgbImg 128 40 (6/5)
  exact ⟨h.2.2.1, (h.2.2.2.2.2.2 rfl).1⟩

theorem red_mask_pixel_iff (sens : ℚ) (r g b : Nat) :
    red_mask_pixel sens r g b = true
      ↔ ((g : ℚ) * sens < (r : ℚ) ∧ (b : ℚ) * sens < (r : ℚ)) := by
  unfold red_mask_pixel
  rw [Bool.and_eq_true, decide_eq_true_eq, decide_eq_true_eq]

theorem triples_detect_red (sens : ℚ) :
    ∀ l : List Nat, triples (detect_red_data sens l)
      = (triples l).map (fun px =>
          if red_mask_pixel sens px.1 px.2.1 px.2.2
          then ((255:Nat), (255:Nat), (255:Nat)) else (0, 0, 0))
  | [] => rfl
  | [a] => rfl
  | [a, b] => rfl
  | r :: g :: b :: rest => by
      have ih := triples_detect_red sens rest
      by_cases hm : red_mask_pixel sens r g b = true
      · simp only [detect_red_data, hm, if_true, List.cons_append, List.nil_append,
          triples, List.map_cons, ih]
      · have hm' : red_mask_pixel sens r g b = false := by
          simpa using hm
        simp only [detect_red_data, hm', Bool.false_eq_true, if_false, List.cons_append,
          List.nil_append, triples, List.map_cons, ih]

/-- The number of pure-white pixels in a pixel list. -/
def countWhitePixels : List (Nat × Nat × Nat) → Nat
  | [] => 0
  | px :: rest => (if px = (255, 255, 255) then 1 else 0) + countWhitePixels rest

theorem countWhite_detect (sens : ℚ) :
    ∀ l : List Nat,
      countWhitePixels (triples (detect_red_data sens l)) = countRedPixels sens l
  | [] => rfl
  | [a] => rfl
  | [a, b] => rfl
  | r :: g :: b :: rest => by
      have ih := countWhite_detect sens rest
      by_cases hm : red_mask_pixel sens r g b = true
      · simp only [detect_red_data, countRedPixels, hm, if_true, List.cons_append,
          List.nil_append, triples, countWhitePixels, ih]
      · have hm' : red_mask_pixel sens r g b = false := by
          simpa using hm
        simp only [detect_red_data, countRedPixels, hm', Bool.false_eq_true, if_false,
          List.cons_append, List.nil_append, triples, countWhitePixels, ih]
        norm_num
        decide

theorem countRed_le (sens : ℚ) :
    ∀ l : List Nat, 3 * countRedPixels sens l ≤ l.length
  | [] => by simp [countRedPixels]
  | [a] => by simp [countRedPixels]
  | [a, b] => by simp [countRedPixels]
  | r :: g :: b :: rest => by
      have ih := countRed_le sens rest
      simp only [countRedPixels, List.length_cons]
      split <;> omega

/-- C2: on a 3-channel grid, the red-dominance filter turns a pixel into
`[255,255,255]` exactly when its red channel strictly exceeds sensitivity
times its green channel and sensitivity times its blue channel, and into
`[0,0,0]` otherwise. -/
theorem rednessDetector_pixel_rule (img : MyImage) (sens : ℚ) (writeOk : Bool)
    (hrgb : isRGBShape img.img_array.shape = true) :
    triples (RednessDetector.detect_red_areas writeOk img sens).1.img_array.data
      = (triples img.img_array.data).map
          (fun px =>
            if (px.2.1 : ℚ) * sens < (px.1 : ℚ) ∧ (px.2.2 : ℚ) * sens < (px.1 : ℚ)
            then ((255:Nat), (255:Nat), (255:Nat)) else (0, 0, 0)) := by
  rw [show (RednessDetector.detect_red_areas writeOk img sens).1.img_array.data
      = detect_red_data sens img.img_array.data from by
        unfold RednessDetector.detect_red_areas
        rw [if_pos hrgb]]
  rw [triples_detect_red sens]
  refine List.map_congr_left (fun px _ => ?_)
  by_cases hm : (px.2.1 : ℚ) * sens < (px.1 : ℚ) ∧ (px.2.2 : ℚ) * sens < (px.1 : ℚ)
  · rw [if_pos ((red_mask_pixel_iff sens px.1 px.2.1 px.2.2).2 hm), if_pos hm]
  · rw [if_neg (fun hb => hm ((red_mask_pixel_iff sens px.1 px.2.1 px.2.2).1 hb)),
      if_neg hm]

/-- C2 witness: on the concrete RGB image with sensitivity 1.2 the
red-dominant pixel becomes white and the green-dominant pixel black. -/
theorem rednessDetector_pixel_rule_witness :
    triples (RednessDetector.detect_red_areas true rgbImg (6/5)).1.img_array.data
      = [(255, 255, 255), (0, 0, 0)] :=
  (rednessDetector_pixel_rule rgbImg (6/5) true rfl).trans
    (by norm_num [rgbImg, triples])

/-- The statistics carried by a completed run, if any. -/
def RedOutcome.statsOf : RedOutcome → Option RedStats
  | RedOutcome.unsupportedFormat => none
  | RedOutcome.completed _ stats => some stats

/-- C9: on a well-formed, non-empty RGB grid the filter completes and reports
a red-pixel count equal to the number of `[255,255,255]` pixels in the mutated
buffer, a total equal to the grid's pixel count `h*w`, and a percentage equal
to count/total*100, which lies in [0,100]. -/
theorem red_stats_consistent (img : MyImage) (sens : ℚ) (writeOk : Bool)
    (hrgb : isRGBShape img.img_array.shape = true)
    (hwf : img.img_array.wf)
    (hpos : 0 < (img.img_array.shape.take 2).prod) :
    (((RednessDetector.detect_red_areas writeOk img sens).2).statsOf
      = some
        { red_pixel_count :=
            countWhitePixels
              (triples (RednessDetector.detect_red_areas writeOk img sens).1.img_array.data)
          total_pixels := (img.img_array.shape.take 2).prod
          red_percentage :=
            (countWhitePixels
                (triples (RednessDetector.detect_red_areas writeOk img sens).1.img_array.data) : ℚ)
              / ((img.img_array.shape.take 2).prod : ℚ) * 100 })
    ∧ 0 ≤ (countWhitePixels
            (triples (RednessDetector.detect_red_areas writeOk img sens).1.img_array.data) : ℚ)
          / ((img.img_array.shape.take 2).prod : ℚ) * 100
    ∧ (countWhitePixels
            (triples (RednessDetector.detect_red_areas writeOk img sens).1.img_array.data) : ℚ)
          / ((img.img_array.shape.take 2).prod : ℚ) * 100 ≤ 100 := by
  have hdata : (RednessDetector.detect_red_areas writeOk img sens).1.img_array.data
      = detect_red_data sens img.img_array.data := by
    unfold RednessDetector.detect_red_areas
    rw [if_pos hrgb]
  have hcw : countWhitePixels
      (triples (RednessDetector.detect_red_areas writeOk img sens).1.img_array.data)
      = countRedPixels sens img.img_array.data := by
    rw [hdata]
    exact countWhite_detect sens img.img_array.data
  obtain ⟨a, b, hshape⟩ := rgb_shape_structure img.img_array.shape hrgb
  have hlen : img.img_array.data.length = a * b * 3 := by
    rw [NDArray.wf, hshape] at hwf
    simpa [mul_assoc] using hwf
  have htake : (img.img_array.shape.take 2).prod = a * b := by
    rw [hshape]
    simp
  have hcount : countRedPixels sens img.img_array.data ≤ (img.img_array.shape.take 2).prod := by
    have h3 := countRed_le sens img.img_array.data
    rw [hlen] at h3
    rw [htake]
    omega
  refine ⟨?_, ?_, ?_⟩
  · rw [hcw]
    unfold RednessDetector.detect_red_areas RedOutcome.statsOf
    rw [if_pos hrgb]
  · positivity
  · rw [hcw]
    have hq : (countRedPixels sens img.img_array.data : ℚ)
        / ((img.img_array.shape.take 2).prod : ℚ) ≤ 1 := by
      rw [div_le_one (by exact_mod_cast hpos)]
      exact_mod_cast hcount
    linarith

/-- C9 witness: on the concrete RGB image one of two pixels is red-dominant,
so the reported statistics are count 1 of total 2, i.e. 50 percent. -/
theorem red_stats_consistent_witness :
    (((RednessDetector.detect_red_areas true rgbImg (6/5)).2).statsOf
      = some
        { red_pixel_count :=
            countWhitePixels
              (triples (RednessDetector.detect_red_areas true rgbImg (6/5)).1.img_array.data)
          total_pixels := (rgbImg.img_array.shape.take 2).prod
          red_percentage :=
            (countWhitePixels
                (triples (RednessDetector.detect_red_areas true rgbImg (6/5)).1.img_array.data) : ℚ)
              / ((rgbImg.img_array.shape.take 2).prod : ℚ) * 100 })
    ∧ 0 ≤ (countWhitePixels
            (triples (RednessDetector.detect_red_areas true rgbImg (6/5)).1.img_array.data) : ℚ)
          / ((rgbImg.img_array.shape.take 2).prod : ℚ) * 100
    ∧ (countWhitePixels
            (triples (RednessDetector.detect_red_areas true rgbImg (6/5)).1.img_array.data) : ℚ)
          / ((rgbImg.img_array.shape.take 2).prod : ℚ) * 100 ≤ 100 :=
  red_stats_consistent rgbImg (6/5) true rfl rfl (by decide)
